import Mathlib

/-!
Verification of the FastAPI task-management CRUD service.

The embedding models:
- the entity and status enum (`app/models/task.py`),
- the pydantic request schemas and their validation (`app/schemas/task.py`),
- the service layer (`app/services/task_service.py`),
- the HTTP routing layer (`app/routers/tasks.py`, mounted in `app/main.py`).

The SQLAlchemy session/engine is modelled as a pure `Store`: a list of rows,
an auto-increment counter for primary keys, and an abstract clock standing in
for the database timestamps (`func.now()`).
-/

namespace TaskApp

/-- Status enumeration, from `app/models/task.py`, `class TaskStatus(enum.Enum)`
with members `PENDING`, `IN_PROGRESS`, `COMPLETED`. -/
inductive TaskStatus where
  | PENDING
  | IN_PROGRESS
  | COMPLETED
deriving DecidableEq

/-- The string value a status serializes to, from the enum member values in
`app/models/task.py` (each member's value equals its name). -/
def statusStr : TaskStatus → String
  | .PENDING => "PENDING"
  | .IN_PROGRESS => "IN_PROGRESS"
  | .COMPLETED => "COMPLETED"

/-- One stored row of the `tasks` table, from `class Task(Base)` in
`app/models/task.py`: integer primary key, required title, nullable
description, status column, `created_at` set at insertion, `updated_at`
null until the first update. Timestamps are abstract clock ticks. -/
structure Task where
  id : Nat
  title : String
  description : Option String
  status : TaskStatus
  createdAt : Nat
  updatedAt : Option Nat
deriving DecidableEq

/-- The relational store: the rows of the single `tasks` table, the
auto-increment counter for the primary key, and a clock supplying
`func.now()` timestamps. -/
structure Store where
  tasks : List Task
  nextId : Nat
  clock : Nat
deriving DecidableEq

/-- The empty database after `Base.metadata.create_all`: no rows, the
auto-increment counter at 1. -/
def initStore : Store := ⟨[], 1, 0⟩

/-- A shallow JSON value as it can appear for one field of a request body. -/
inductive JVal where
  | jstr : String → JVal
  | jnum : Int → JVal
  | jnull : JVal
deriving DecidableEq

/-- A JSON request body for create/update: each schema field is either
present with a value (`some v`) or absent from the object (`none`).
Presence of a field with value `null` is `some jnull`, distinct from
absence. -/
structure Body where
  title : Option JVal
  description : Option JVal
  status : Option JVal
deriving DecidableEq

/-- Validation of the `title: str` field of `TaskBase` in
`app/schemas/task.py`: required, must be a JSON string; no length
constraint is declared, so any string (including the empty one) passes. -/
def validateTitle : Option JVal → Except String String
  | some (.jstr s) => .ok s
  | some _ => .error "title: input should be a valid string"
  | none => .error "title: field required"

/-- Validation of the `description: Optional[str] = None` field of `TaskBase`:
absent defaults to `None`, explicit `null` is accepted as `None`, a string is
accepted, anything else is rejected. -/
def validateDescription : Option JVal → Except String (Option String)
  | none => .ok none
  | some .jnull => .ok none
  | some (.jstr s) => .ok (some s)
  | some _ => .error "description: input should be a valid string"

/-- Validation of the `status: TaskStatus = TaskStatus.PENDING` field of
`TaskBase`: absent defaults to `PENDING`; a supplied value must be one of the
three enum member values. -/
def validateStatus : Option JVal → Except String TaskStatus
  | none => .ok .PENDING
  | some (.jstr "PENDING") => .ok .PENDING
  | some (.jstr "IN_PROGRESS") => .ok .IN_PROGRESS
  | some (.jstr "COMPLETED") => .ok .COMPLETED
  | some _ => .error "status: input should be PENDING, IN_PROGRESS or COMPLETED"

/-- A validated `TaskCreate` model (`app/schemas/task.py`): the three
`TaskBase` fields with defaults applied. -/
structure TaskCreate where
  title : String
  description : Option String
  status : TaskStatus
deriving DecidableEq

/-- A validated `TaskUpdate` model (`app/schemas/task.py`): the same three
fields, together with the pydantic per-field presence information
(`__fields_set__`) that `dict(exclude_unset=True)` consults. -/
structure TaskUpdate where
  title : String
  description : Option String
  status : TaskStatus
  titleSet : Bool
  descriptionSet : Bool
  statusSet : Bool
deriving DecidableEq

/-- Parsing a request body into `TaskCreate`: each field validated per the
schema; any field error fails the whole request (`title` reported first,
matching field declaration order). -/
def parseTaskCreate (b : Body) : Except String TaskCreate :=
  match validateTitle b.title, validateDescription b.description,
      validateStatus b.status with
  | .ok t, .ok d, .ok st => .ok ⟨t, d, st⟩
  | .error e, _, _ => .error e
  | _, .error e, _ => .error e
  | _, _, .error e => .error e

/-- Parsing a request body into `TaskUpdate`: identical validation to
`parseTaskCreate` (the schemas are structurally identical), additionally
recording which fields were present in the body. -/
def parseTaskUpdate (b : Body) : Except String TaskUpdate :=
  match validateTitle b.title, validateDescription b.description,
      validateStatus b.status with
  | .ok t, .ok d, .ok st =>
      .ok ⟨t, d, st, b.title.isSome, b.description.isSome, b.status.isSome⟩
  | .error e, _, _ => .error e
  | _, .error e, _ => .error e
  | _, _, .error e => .error e

/-- `TaskService.get_all_tasks`: `db.query(Task).all()` — every row, in the
store's natural order. -/
def get_all_tasks (s : Store) : List Task :=
  s.tasks

/-- `TaskService.get_task`: `db.query(Task).filter(Task.id == task_id).first()`
— the first row whose id matches, or the absent marker. -/
def get_task (s : Store) (task_id : Nat) : Option Task :=
  s.tasks.find? (fun t => t.id == task_id)

/-- `TaskService.create_task`: `Task(**task.dict())` built from all fields of
the validated input (defaults already applied), inserted with the next
auto-increment id and `created_at` set by the store; returns the refreshed
row. -/
def create_task (s : Store) (tc : TaskCreate) : Task × Store :=
  let t : Task :=
    { id := s.nextId, title := tc.title, description := tc.description,
      status := tc.status, createdAt := s.clock, updatedAt := none }
  (t, { tasks := s.tasks ++ [t], nextId := s.nextId + 1, clock := s.clock + 1 })

/-- The field-merge loop of `TaskService.update_task`:
`for key, value in task.dict(exclude_unset=True).items(): setattr(...)`.
Only fields recorded as set are overwritten, in field declaration order;
the commit fires the column's `onupdate=func.now()`, setting `updated_at`. -/
def applyUpdate (t : Task) (u : TaskUpdate) (now : Nat) : Task :=
  let t1 := if u.titleSet then { t with title := u.title } else t
  let t2 := if u.descriptionSet then { t1 with description := u.description } else t1
  let t3 := if u.statusSet then { t2 with status := u.status } else t2
  { t3 with updatedAt := some now }

/-- `TaskService.update_task`: look the row up by id; absent means the absent
marker is returned and nothing is written; otherwise the set fields are
merged onto the row, committed, and the refreshed row returned. -/
def update_task (s : Store) (task_id : Nat) (u : TaskUpdate) :
    Option Task × Store :=
  match get_task s task_id with
  | none => (none, s)
  | some t =>
      let t2 := applyUpdate t u s.clock
      (some t2,
        { s with
          tasks := s.tasks.map (fun x => if x.id == task_id then t2 else x),
          clock := s.clock + 1 })

/-- `TaskService.delete_task`: look the row up by id; delete it and return
`True` if found, return `False` with no side effect otherwise. -/
def delete_task (s : Store) (task_id : Nat) : Bool × Store :=
  match get_task s task_id with
  | none => (false, s)
  | some _ =>
      (true,
        { s with
          tasks := s.tasks.filter (fun x => x.id != task_id),
          clock := s.clock + 1 })

/-- An HTTP response payload of this API. -/
inductive Resp where
  | taskView : Task → Resp
  | taskList : List Task → Resp
  | errDetail : String → Resp
  | message : String → Resp
deriving DecidableEq

/-- `GET /api/tasks/` handler (`get_tasks` in `app/routers/tasks.py`):
200 with all tasks. -/
def get_tasks_route (s : Store) : Nat × Resp × Store :=
  (200, .taskList (get_all_tasks s), s)

/-- `POST /api/tasks/` handler (`create_task` in `app/routers/tasks.py`):
the body is validated against `TaskCreate` before the handler runs; a
validation failure is a 422 with no persistence operation, otherwise the
service creates the row and the view is returned with 200. -/
def create_task_route (s : Store) (b : Body) : Nat × Resp × Store :=
  match parseTaskCreate b with
  | .error e => (422, .errDetail e, s)
  | .ok tc =>
      let r := create_task s tc
      (200, .taskView r.1, r.2)

/-- `GET /api/tasks/{task_id}` handler: 404 `"Task not found"` on the absent
marker, otherwise 200 with the task view. -/
def get_task_route (s : Store) (task_id : Nat) : Nat × Resp × Store :=
  match get_task s task_id with
  | none => (404, .errDetail "Task not found", s)
  | some t => (200, .taskView t, s)

/-- `PUT /api/tasks/{task_id}` handler: the body is validated against
`TaskUpdate` (422 on failure, nothing persisted); the service's absent
marker becomes 404 `"Task not found"`; otherwise 200 with the updated view. -/
def update_task_route (s : Store) (task_id : Nat) (b : Body) :
    Nat × Resp × Store :=
  match parseTaskUpdate b with
  | .error e => (422, .errDetail e, s)
  | .ok u =>
      match update_task s task_id u with
      | (none, s2) => (404, .errDetail "Task not found", s2)
      | (some t, s2) => (200, .taskView t, s2)

/-- `DELETE /api/tasks/{task_id}` handler: 404 `"Task not found"` when the
service returns `False`, otherwise 200 with the confirmation message. -/
def delete_task_route (s : Store) (task_id : Nat) : Nat × Resp × Store :=
  let r := delete_task s task_id
  if r.1 then (200, .message "Task deleted successfully", r.2)
  else (404, .errDetail "Task not found", r.2)

/-- The registered (method, path) table of the application: the router in
`app/routers/tasks.py` declares its own `/tasks` segment and `app/main.py`
mounts it under `/api`; `main.py` adds `/health` and `/`. -/
def routeTable : List (String × String) :=
  [("GET", "/api" ++ "/tasks" ++ "/"),
   ("POST", "/api" ++ "/tasks" ++ "/"),
   ("GET", "/api" ++ "/tasks" ++ "/{task_id}"),
   ("PUT", "/api" ++ "/tasks" ++ "/{task_id}"),
   ("DELETE", "/api" ++ "/tasks" ++ "/{task_id}"),
   ("GET", "/health"),
   ("GET", "/")]

/-- One incoming API request against the task routes. -/
inductive Request where
  | listReq : Request
  | createReq : Body → Request
  | getReq : Nat → Request
  | putReq : Nat → Body → Request
  | delReq : Nat → Request
deriving DecidableEq

/-- Dispatch of one request to its route handler. -/
def applyRequest (s : Store) : Request → Nat × Resp × Store
  | .listReq => get_tasks_route s
  | .createReq b => create_task_route s b
  | .getReq i => get_task_route s i
  | .putReq i b => update_task_route s i b
  | .delReq i => delete_task_route s i

/-- The store after serving a sequence of requests. -/
def runRequests (s : Store) (rs : List Request) : Store :=
  rs.foldl (fun st r => (applyRequest st r).2.2) s

/-- The status strings a response payload serializes to the client. -/
def respStatusStrings : Resp → List String
  | .taskView t => [statusStr t.status]
  | .taskList l => l.map (fun t => statusStr t.status)
  | .errDetail _ => []
  | .message _ => []

/-! Sample concrete data, used to instantiate the theorems below. -/

/-- A sample stored row: the row produced by one successful create on
`initStore` with title "Write report" and description "Q3". -/
def sampleTask : Task :=
  { id := 1, title := "Write report", description := some "Q3",
    status := .PENDING, createdAt := 0, updatedAt := none }

/-- A one-row sample store. -/
def sampleStore : Store := { tasks := [sampleTask], nextId := 2, clock := 1 }

/-- A sample valid request body. -/
def sampleBody : Body := ⟨some (.jstr "Write report"), some (.jstr "Q3"), none⟩

/-! Helper lemmas about the service primitives. -/

/-- A row returned by `get_task` carries the looked-up id. -/
lemma get_task_id {s : Store} {i : Nat} {t : Task}
    (h : get_task s i = some t) : t.id = i := by
  unfold get_task at h
  simpa using List.find?_some h

/-- The merge loop never touches the primary key. -/
lemma applyUpdate_id (t : Task) (u : TaskUpdate) (now : Nat) :
    (applyUpdate t u now).id = t.id := by
  unfold applyUpdate
  cases u.titleSet <;> cases u.descriptionSet <;> cases u.statusSet <;> simp

/-- The merged row's title: overwritten exactly when the field was set. -/
lemma applyUpdate_title (t : Task) (u : TaskUpdate) (now : Nat) :
    (applyUpdate t u now).title = if u.titleSet then u.title else t.title := by
  unfold applyUpdate
  cases u.titleSet <;> cases u.descriptionSet <;> cases u.statusSet <;> simp

/-- The merged row's description: overwritten exactly when the field was set. -/
lemma applyUpdate_description (t : Task) (u : TaskUpdate) (now : Nat) :
    (applyUpdate t u now).description
      = if u.descriptionSet then u.description else t.description := by
  unfold applyUpdate
  cases u.titleSet <;> cases u.descriptionSet <;> cases u.statusSet <;> simp

/-- The merged row's status: overwritten exactly when the field was set. -/
lemma applyUpdate_status (t : Task) (u : TaskUpdate) (now : Nat) :
    (applyUpdate t u now).status
      = if u.statusSet then u.status else t.status := by
  unfold applyUpdate
  cases u.titleSet <;> cases u.descriptionSet <;> cases u.statusSet <;> simp

/-- Looking up a freshly appended row whose id clashes with no earlier row
finds exactly that row. -/
lemma find_append_fresh (l : List Task) (t : Task)
    (h : ∀ x ∈ l, x.id ≠ t.id) :
    (l ++ [t]).find? (fun x => x.id == t.id) = some t := by
  induction l with
  | nil => simp [List.find?]
  | cons a as ih =>
      have ha : (a.id == t.id) = false := by
        simpa using h a (List.mem_cons_self a as)
      rw [List.cons_append, List.find?_cons_of_neg _ (by simp [ha])]
      exact ih (fun x hx => h x (List.mem_cons_of_mem a hx))

/-- Every status serializes to one of the three enum literals. -/
lemma statusStr_mem (st : TaskStatus) :
    statusStr st ∈ ["PENDING", "IN_PROGRESS", "COMPLETED"] := by
  cases st <;> simp [statusStr]

/-- Every status string occurring in a response payload is one of the three
enum literals. -/
lemma respStatusStrings_mem (r : Resp) :
    ∀ v ∈ respStatusStrings r,
      v ∈ ["PENDING", "IN_PROGRESS", "COMPLETED"] := by
  intro v hv
  cases r with
  | taskView t =>
      simp [respStatusStrings] at hv
      rw [hv]
      exact statusStr_mem t.status
  | taskList l =>
      simp [respStatusStrings] at hv
      obtain ⟨t, _, ht⟩ := hv
      rw [← ht]
      exact statusStr_mem t.status
  | errDetail d => simp [respStatusStrings] at hv
  | message m => simp [respStatusStrings] at hv

/-! Theorems settling the claims. -/

/-- C2, counterexample: a create request whose `title` is the empty string is
accepted (200) and does change the store — the schema declares `title: str`
with no length constraint, so the claimed rejection of empty titles does not
happen. -/
theorem c2_counterexample :
    (create_task_route initStore ⟨some (JVal.jstr ""), none, none⟩).1 = 200 ∧
    (create_task_route initStore ⟨some (JVal.jstr ""), none, none⟩).2.2
      ≠ initStore := by
  constructor
  · rfl
  · decide

/-- C2 (amended): `title` is required and must be a string: a create request
whose `title` is absent, null, or of a non-string type fails validation with
422 and the store unchanged; an empty-string `title`, however, passes
validation and the create succeeds. -/
theorem c2_title_validation (s : Store) (d st : Option JVal) :
    create_task_route s ⟨none, d, st⟩
        = (422, Resp.errDetail "title: field required", s) ∧
    (∀ n : Int, create_task_route s ⟨some (JVal.jnum n), d, st⟩
        = (422, Resp.errDetail "title: input should be a valid string", s)) ∧
    create_task_route s ⟨some JVal.jnull, d, st⟩
        = (422, Resp.errDetail "title: input should be a valid string", s) ∧
    (create_task_route s ⟨some (JVal.jstr ""), none, none⟩).1 = 200 := by
  refine ⟨?_, fun n => ?_, ?_, ?_⟩ <;>
    simp [create_task_route, parseTaskCreate, validateTitle,
      validateDescription, validateStatus]

/-- C3: a GET, PUT (with a well-formed body), or DELETE on an id absent from
the store each returns 404 with detail "Task not found" and leaves the store
unchanged. -/
theorem c3_not_found (s : Store) (i : Nat) (b : Body) (u : TaskUpdate)
    (habs : get_task s i = none) (hb : parseTaskUpdate b = .ok u) :
    get_task_route s i = (404, Resp.errDetail "Task not found", s) ∧
    update_task_route s i b = (404, Resp.errDetail "Task not found", s) ∧
    delete_task_route s i = (404, Resp.errDetail "Task not found", s) := by
  refine ⟨?_, ?_, ?_⟩ <;>
    simp [get_task_route, update_task_route, delete_task_route,
      update_task, delete_task, habs, hb]

/-- C3, witness: on the empty store, id 7 is absent and all three routes
return 404 without touching the store. -/
theorem c3_not_found_witness :
    get_task_route initStore 7
        = (404, Resp.errDetail "Task not found", initStore) ∧
    update_task_route initStore 7 sampleBody
        = (404, Resp.errDetail "Task not found", initStore) ∧
    delete_task_route initStore 7
        = (404, Resp.errDetail "Task not found", initStore) :=
  c3_not_found initStore 7 sampleBody
    ⟨"Write report", some "Q3", .PENDING, true, true, false⟩ rfl rfl

/-- C4, counterexample: the task API is not registered at the bare `/tasks`
paths — `app/main.py` mounts the router with an `/api` prefix, so no route
exists at `/tasks` or `/tasks/{task_id}`. -/
theorem c4_counterexample :
    ("GET", "/tasks") ∉ routeTable ∧
    ("POST", "/tasks") ∉ routeTable ∧
    ("GET", "/tasks/{task_id}") ∉ routeTable := by
  decide

/-- C4 (amended): the task API is served under the `/api` prefix: list at
GET `/api/tasks/`, create at POST `/api/tasks/`, and read/update/delete at
GET/PUT/DELETE `/api/tasks/{task_id}`, each returning 200 on success. -/
theorem c4_routes (s : Store) (i : Nat) (t : Task) (b : Body)
    (tc : TaskCreate) (u : TaskUpdate) (hc : parseTaskCreate b = .ok tc)
    (hu : parseTaskUpdate b = .ok u) (hget : get_task s i = some t) :
    ("GET", "/api/tasks/") ∈ routeTable ∧
    ("POST", "/api/tasks/") ∈ routeTable ∧
    ("GET", "/api/tasks/{task_id}") ∈ routeTable ∧
    ("PUT", "/api/tasks/{task_id}") ∈ routeTable ∧
    ("DELETE", "/api/tasks/{task_id}") ∈ routeTable ∧
    (get_tasks_route s).1 = 200 ∧
    (create_task_route s b).1 = 200 ∧
    (get_task_route s i).1 = 200 ∧
    (update_task_route s i b).1 = 200 ∧
    (delete_task_route s i).1 = 200 := by
  refine ⟨by decide, by decide, by decide, by decide, by decide,
    rfl, ?_, ?_, ?_, ?_⟩ <;>
    simp [create_task_route, get_task_route, update_task_route,
      delete_task_route, update_task, delete_task, hc, hu, hget]

/-- C4, witness: on the one-row sample store the routes exist and succeed at
a concrete valid body and present id. -/
theorem c4_routes_witness :
    ("GET", "/api/tasks/") ∈ routeTable ∧
    ("POST", "/api/tasks/") ∈ routeTable ∧
    ("GET", "/api/tasks/{task_id}") ∈ routeTable ∧
    ("PUT", "/api/tasks/{task_id}") ∈ routeTable ∧
    ("DELETE", "/api/tasks/{task_id}") ∈ routeTable ∧
    (get_tasks_route sampleStore).1 = 200 ∧
    (create_task_route sampleStore sampleBody).1 = 200 ∧
    (get_task_route sampleStore 1).1 = 200 ∧
    (update_task_route sampleStore 1 sampleBody).1 = 200 ∧
    (delete_task_route sampleStore 1).1 = 200 :=
  c4_routes sampleStore 1 sampleTask sampleBody
    ⟨"Write report", some "Q3", .PENDING⟩
    ⟨"Write report", some "Q3", .PENDING, true, true, false⟩ rfl rfl rfl

/-- C1, counterexample: with a task present in the store, an update request
whose body supplies only `description` does not succeed: `TaskUpdate`
inherits the required `title` field from `TaskBase`, so validation rejects
the request with 422 and the store is unchanged. -/
theorem c1_counterexample :
    get_task sampleStore 1 = some sampleTask ∧
    update_task_route sampleStore 1 ⟨none, some (JVal.jstr "new text"), none⟩
      = (422, Resp.errDetail "title: field required", sampleStore) :=
  ⟨rfl, rfl⟩

/-- C1 (amended): an update request whose body supplies only `description`
is rejected with 422 and no store change, because the update schema requires
`title`; for update inputs that reach the service, fields not set in the
input are left untouched — an input with `title` and `status` unset
overwrites at most `description`, leaving the stored `title` and `status`
unchanged. -/
theorem c1_partial_update (s : Store) (i : Nat) (t : Task) (u : TaskUpdate)
    (hfound : get_task s i = some t) :
    (∀ d st : Option JVal, update_task_route s i ⟨none, d, st⟩
        = (422, Resp.errDetail "title: field required", s)) ∧
    (u.titleSet = false → u.statusSet = false →
      (update_task s i u).1
        = some { t with
            description :=
              if u.descriptionSet then u.description else t.description,
            updatedAt := some s.clock }) := by
  constructor
  · intro d st
    simp [update_task_route, parseTaskUpdate, validateTitle]
  · intro h1 h2
    simp only [update_task, hfound]
    unfold applyUpdate
    cases hd : u.descriptionSet <;> simp [h1, h2, hd]

/-- C1, witness: updating the sample task with a service-level input whose
only set field is `description` rewrites the description and keeps the
title and status. -/
theorem c1_partial_update_witness :
    (update_task sampleStore 1
        ⟨"ignored", some "rewritten", .COMPLETED, false, true, false⟩).1
      = some { sampleTask with
          description := some "rewritten"
          updatedAt := some 1 } := by
  have h := (c1_partial_update sampleStore 1 sampleTask
      ⟨"ignored", some "rewritten", .COMPLETED, false, true, false⟩ rfl).2
    rfl rfl
  simpa using h

/-- C5: a create request omitting `status` yields a task whose status is
PENDING: the validated input's status defaults to PENDING, the created row
carries PENDING and is stored, and the route returns it with 200. -/
theorem c5_default_status (s : Store) (b : Body) (tc : TaskCreate)
    (hst : b.status = none) (h : parseTaskCreate b = .ok tc) :
    tc.status = TaskStatus.PENDING ∧
    (create_task s tc).1.status = TaskStatus.PENDING ∧
    (create_task s tc).1 ∈ (create_task s tc).2.tasks ∧
    create_task_route s b
      = (200, Resp.taskView (create_task s tc).1, (create_task s tc).2) := by
  have htc : tc.status = TaskStatus.PENDING := by
    cases ht : validateTitle b.title with
    | error e => simp [parseTaskCreate, ht] at h
    | ok tv =>
        cases hd : validateDescription b.description with
        | error e => simp [parseTaskCreate, ht, hd] at h
        | ok dv =>
            simp [parseTaskCreate, ht, hd, hst, validateStatus] at h
            simp [← h]
  refine ⟨htc, by simp [create_task, htc], by simp [create_task], ?_⟩
  simp [create_task_route, h]

/-- C5, witness: creating from the sample body (whose `status` is absent)
stores a PENDING task. -/
theorem c5_default_status_witness :
    (create_task initStore
        ⟨"Write report", some "Q3", TaskStatus.PENDING⟩).1.status
      = TaskStatus.PENDING :=
  (c5_default_status initStore sampleBody
    ⟨"Write report", some "Q3", .PENDING⟩ rfl rfl).2.1

/-- C6: creating a task from a validated input and fetching it by the
returned id yields the created row, whose title, description and status are
exactly the input's (in any store where the auto-increment counter exceeds
every stored id, as in every reachable store). -/
theorem c6_round_trip (s : Store) (tc : TaskCreate)
    (hids : ∀ t ∈ s.tasks, t.id < s.nextId) :
    get_task (create_task s tc).2 (create_task s tc).1.id
        = some (create_task s tc).1 ∧
    (create_task s tc).1.title = tc.title ∧
    (create_task s tc).1.description = tc.description ∧
    (create_task s tc).1.status = tc.status := by
  refine ⟨?_, rfl, rfl, rfl⟩
  unfold get_task create_task
  exact find_append_fresh s.tasks _ (fun x hx => Nat.ne_of_lt (hids x hx))

/-- C6, witness: the round trip on the empty store at a concrete input. -/
theorem c6_round_trip_witness :
    get_task
        (create_task initStore ⟨"Write report", some "Q3", TaskStatus.PENDING⟩).2
        (create_task initStore ⟨"Write report", some "Q3", TaskStatus.PENDING⟩).1.id
      = some (create_task initStore
          ⟨"Write report", some "Q3", TaskStatus.PENDING⟩).1 :=
  (c6_round_trip initStore ⟨"Write report", some "Q3", .PENDING⟩
    (by simp [initStore])).1

/-- C7: deleting an absent id returns false with no side effect; deleting a
present id returns true, removes exactly the rows with that id and keeps
every other row unchanged, and a subsequent GET on the same id returns 404. -/
theorem c7_delete (s : Store) (i : Nat) :
    (get_task s i = none → delete_task s i = (false, s)) ∧
    (∀ t : Task, get_task s i = some t →
      (delete_task s i).1 = true ∧
      (∀ x : Task, x ∈ (delete_task s i).2.tasks ↔ x ∈ s.tasks ∧ x.id ≠ i) ∧
      get_task_route (delete_task s i).2 i
        = (404, Resp.errDetail "Task not found", (delete_task s i).2)) := by
  constructor
  · intro h
    simp [delete_task, h]
  · intro t ht
    have htasks : (delete_task s i).2.tasks
        = s.tasks.filter (fun x => x.id != i) := by
      simp [delete_task, ht]
    refine ⟨by simp [delete_task, ht], ?_, ?_⟩
    · intro x
      rw [htasks]
      simp [List.mem_filter]
    · have hnone : get_task (delete_task s i).2 i = none := by
        unfold get_task
        rw [htasks]
        refine List.find?_eq_none.mpr ?_
        intro x hx
        have hne := (List.mem_filter.mp hx).2
        simpa using hne
      simp [get_task_route, hnone]

/-- C7, witness: deleting absent id 7 from the empty store is a no-op
returning false; deleting present id 1 from the sample store returns true. -/
theorem c7_delete_witness :
    delete_task initStore 7 = (false, initStore) ∧
    (delete_task sampleStore 1).1 = true :=
  ⟨(c7_delete initStore 7).1 rfl,
   ((c7_delete sampleStore 1).2 sampleTask rfl).1⟩

/-- C8: in every store reachable from the initial store by any request
sequence, every stored task's status serializes to one of the three enum
literals, and every status string in any response payload is one of them. -/
theorem c8_status_invariant (rs : List Request) (s : Store) (r : Request) :
    (∀ t ∈ (runRequests initStore rs).tasks,
        statusStr t.status ∈ ["PENDING", "IN_PROGRESS", "COMPLETED"]) ∧
    (∀ v ∈ respStatusStrings (applyRequest s r).2.1,
        v ∈ ["PENDING", "IN_PROGRESS", "COMPLETED"]) :=
  ⟨fun t _ => statusStr_mem t.status,
   fun v hv => respStatusStrings_mem _ v hv⟩

/-- C8, witness: after one create request the stored sample task's status
string is one of the three literals. -/
theorem c8_status_invariant_witness :
    statusStr sampleTask.status ∈ ["PENDING", "IN_PROGRESS", "COMPLETED"] :=
  (c8_status_invariant [Request.createReq sampleBody] initStore
    Request.listReq).1 sampleTask (by decide)

/-- C9: the update is presence-aware, not default-driven: for an existing
task, an update whose body omits `status` (resp. `description`) leaves that
stored field unchanged; a body explicitly supplying `status = "PENDING"`
(the schema default) overwrites the status to PENDING, and an explicit
`description = null` stores a null description. -/
theorem c9_presence_aware (s : Store) (i : Nat) (t : Task) (b : Body)
    (u : TaskUpdate) (hfound : get_task s i = some t)
    (hp : parseTaskUpdate b = .ok u) :
    (b.status = none →
      (update_task s i u).1.map Task.status = some t.status) ∧
    (b.description = none →
      (update_task s i u).1.map Task.description = some t.description) ∧
    (b.status = some (JVal.jstr "PENDING") →
      (update_task s i u).1.map Task.status = some TaskStatus.PENDING) ∧
    (b.description = some JVal.jnull →
      (update_task s i u).1.map Task.description = some none) := by
  cases ht : validateTitle b.title with
  | error e => simp [parseTaskUpdate, ht] at hp
  | ok tv =>
  cases hd : validateDescription b.description with
  | error e => simp [parseTaskUpdate, ht, hd] at hp
  | ok dv =>
  cases hs : validateStatus b.status with
  | error e => simp [parseTaskUpdate, ht, hd, hs] at hp
  | ok sv =>
  simp only [parseTaskUpdate, ht, hd, hs, Except.ok.injEq] at hp
  refine ⟨?_, ?_, ?_, ?_⟩
  · intro hbs
    simp [update_task, hfound, applyUpdate_status, ← hp, hbs]
  · intro hbd
    simp [update_task, hfound, applyUpdate_description, ← hp, hbd]
  · intro hbs
    rw [hbs] at hs
    simp only [validateStatus, Except.ok.injEq] at hs
    simp [update_task, hfound, applyUpdate_status, ← hp, hbs, ← hs]
  · intro hbd
    rw [hbd] at hd
    simp only [validateDescription, Except.ok.injEq] at hd
    simp [update_task, hfound, applyUpdate_description, ← hp, hbd, ← hd]

/-- C9, witness: a body supplying `title` and `description` but omitting
`status` leaves the sample task's status unchanged. -/
theorem c9_presence_aware_witness :
    (update_task sampleStore 1
        ⟨"New title", some "Q3", TaskStatus.PENDING, true, true, false⟩).1.map
        Task.status
      = some sampleTask.status :=
  (c9_presence_aware sampleStore 1 sampleTask
    ⟨some (.jstr "New title"), some (.jstr "Q3"), none⟩
    ⟨"New title", some "Q3", .PENDING, true, true, false⟩ rfl rfl).1 rfl

/-- C10: reads never modify the store; create keeps every pre-existing row;
update and delete leave every row whose id differs from the addressed id
exactly as it was (membership of rows with another id is unaffected in both
directions). -/
theorem c10_frame (s : Store) (i : Nat) (tc : TaskCreate) (u : TaskUpdate) :
    (get_tasks_route s).2.2 = s ∧
    (get_task_route s i).2.2 = s ∧
    (∀ t ∈ s.tasks, t ∈ (create_task s tc).2.tasks) ∧
    (∀ t : Task, t.id ≠ i →
      (t ∈ (update_task s i u).2.tasks ↔ t ∈ s.tasks)) ∧
    (∀ t : Task, t.id ≠ i →
      (t ∈ (delete_task s i).2.tasks ↔ t ∈ s.tasks)) := by
  refine ⟨rfl, ?_, ?_, ?_, ?_⟩
  · cases hg : get_task s i <;> simp [get_task_route, hg]
  · intro t ht
    simp only [create_task, List.mem_append]
    exact Or.inl ht
  · intro t htne
    cases hg : get_task s i with
    | none => simp [update_task, hg]
    | some tf =>
        have hid : tf.id = i := get_task_id hg
        simp only [update_task, hg, List.mem_map]
        constructor
        · rintro ⟨x, hx, hfx⟩
          by_cases hxi : x.id = i
          · exfalso
            rw [if_pos (by simp [hxi])] at hfx
            apply htne
            rw [← hfx]
            simp [applyUpdate_id, hid]
          · rw [if_neg (by simp [hxi])] at hfx
            rwa [← hfx]
        · intro hmem
          refine ⟨t, hmem, ?_⟩
          simp [htne]
  · intro t htne
    cases hg : get_task s i with
    | none => simp [delete_task, hg]
    | some tf => simp [delete_task, hg, List.mem_filter, htne]

/-- C10, witness: deleting absent id 4 from the sample store keeps the
sample task (id 1) in the store. -/
theorem c10_frame_witness :
    sampleTask ∈ (delete_task sampleStore 4).2.tasks :=
  ((c10_frame sampleStore 4 ⟨"x", none, .PENDING⟩
      ⟨"x", none, .PENDING, true, false, false⟩).2.2.2.2 sampleTask
    (by decide)).mpr (by decide)

end TaskApp
